import Mathlib

/-!
Shallow embedding of the algorithmic core of the student-risk dashboard
(`src/1_Overview.py`, `src/pages/2_Deep_Insights.py`, `src/3_Predictions.py`):
the filter engine, the single-record one-hot alignment, the risk-probability
and at-risk derivations, the KPI scalars and the by-school aggregation.
Real-valued quantities are modelled over `ℚ`; pandas `NaN` results (mean of an
empty series) are modelled as `none`.
-/

namespace StudentRisk

/-- One row of the student dataset, restricted to the fields the dashboard's
filter, KPI and aggregation logic read.  `school_name` is the derived full
label, `sex` the gender code, `studytime` an integer 1–4, `G3` the observed
final grade (`load_student_data` in `src/1_Overview.py`). -/
structure Record where
  school_name : String
  sex : String
  studytime : ℤ
  G3 : ℚ
deriving DecidableEq, Repr

/-- The sidebar filter state: selected school labels, selected genders and the
minimum-study-time slider value (`src/1_Overview.py` lines 34–51). -/
structure FilterCriteria where
  schools : List String
  genders : List String
  minStudytime : ℤ
deriving DecidableEq, Repr

/-- The filter applied on every page
(`src/1_Overview.py` lines 53–57, `src/3_Predictions.py` lines 58–62):
`df[(df["school_name"].isin(selected_school)) & (df["sex"].isin(selected_gender))
& (df["studytime"] >= selected_studytime)]` — row-wise conjunction of two
membership tests and one inclusive lower bound. -/
def applyFilter (df : List Record) (c : FilterCriteria) : List Record :=
  df.filter fun r =>
    decide (r.school_name ∈ c.schools) && decide (r.sex ∈ c.genders) &&
      decide (c.minStudytime ≤ r.studytime)

/-- `int(df["studytime"].min())` (`src/1_Overview.py` line 48): the minimum of
the `studytime` column; the values are integers, so the `int` cast is the
identity.  The `[]` case is arbitrary (pandas would give `NaN` there). -/
def minStudytime : List Record → ℤ
  | [] => 0
  | r :: rs => (rs.map (·.studytime)).foldl min r.studytime

/-- The default sidebar selections (`src/1_Overview.py` lines 34–51):
all distinct school labels, all distinct genders, and the minimum study time.
The source sorts the distinct values for display; sorting does not change
membership, so the deduplicated lists are used directly. -/
def defaultCriteria (df : List Record) : FilterCriteria :=
  { schools := (df.map (·.school_name)).dedup
    genders := (df.map (·.sex)).dedup
    minStudytime := minStudytime df }

/-- The single-record risk score (`src/3_Predictions.py` line 171):
`risk_prob = max(0, min((10 - predicted_grade) / 10, 1))`. -/
def risk_prob (predicted_grade : ℚ) : ℚ :=
  max 0 (min ((10 - predicted_grade) / 10) 1)

/-- The batch risk score applied per row (`src/3_Predictions.py` lines 87–89):
`((10 - predicted_G3).clip(lower=0) / 10).clip(0, 1)` — pandas
`clip(lower=0)` is `max · 0` and `clip(0, 1)` is `min (max · 0) 1`. -/
def risk_probability (predicted_G3 : ℚ) : ℚ :=
  min (max (max (10 - predicted_G3) 0 / 10) 0) 1

/-- The spec's clamp: `clamp(x, lo, hi) = min(max(x, lo), hi)` (the formula of
spec §4.3, stated there as `clamp((10 - predicted_grade) / 10, 0, 1)`). -/
def clamp (x lo hi : ℚ) : ℚ :=
  min (max x lo) hi

/-- The per-row at-risk flag (`src/3_Predictions.py` line 91 and the branch at
line 173): `predicted_G3 < 10`. -/
def at_risk (predicted_G3 : ℚ) : Bool :=
  decide (predicted_G3 < 10)

/-- The what-if form input assembled into `student_dict`
(`src/3_Predictions.py` lines 155–164): six numeric fields and two
categorical string fields. -/
structure StudentInput where
  studytime : ℚ
  absences : ℚ
  G1 : ℚ
  G2 : ℚ
  failures : ℚ
  health : ℚ
  sex : String
  school : String
deriving DecidableEq, Repr

/-- `pd.get_dummies(student_df, drop_first=True)` on the one-row frame built
from `student_dict` (`src/3_Predictions.py` lines 166–167): numeric columns
pass through unchanged; each categorical column (`sex`, `school`) exhibits
exactly one observed category in a single row, and `drop_first=True` drops the
one reference category per column, so no indicator column survives. -/
def get_dummies_single (s : StudentInput) : List (String × ℚ) :=
  [("studytime", s.studytime), ("absences", s.absences), ("G1", s.G1),
   ("G2", s.G2), ("failures", s.failures), ("health", s.health)]

/-- `row.reindex(columns=schema, fill_value=0)` on a one-row frame
(`src/3_Predictions.py` line 168): the result has exactly the schema's columns
in the schema's order, taking the row's value where the column exists and `0`
where it does not; row columns outside the schema are dropped. -/
def reindexRow (row : List (String × ℚ)) (schema : List String) :
    List (String × ℚ) :=
  schema.map fun c => (c, (row.lookup c).getD 0)

/-- The spec's `align_encode(record, schema)` (§4.2), exactly as implemented at
`src/3_Predictions.py` lines 166–168: one-hot expansion of the single record
followed by reindexing to the given column schema with zero fill. -/
def align_encode (s : StudentInput) (schema : List String) :
    List (String × ℚ) :=
  reindexRow (get_dummies_single s) schema

/-- `student_encoded` (`src/3_Predictions.py` lines 166–168): the single-record
encode used by the what-if path, aligned against the column schema it is
handed (in the source, always `X_encoded.columns`, the fitted model's own
schema). -/
def student_encoded (s : StudentInput) (xcols : List String) :
    List (String × ℚ) :=
  align_encode s xcols

/-- One prediction row as consumed by the aggregator
(`src/3_Predictions.py` lines 86–91, 113–118): the school label and the
boolean at-risk flag derived from the predicted grade. -/
structure Assessment where
  school_name : String
  at_risk : Bool
deriving DecidableEq, Repr

/-- `filtered.groupby("school_name")["at_risk"].mean().reset_index()`
(`src/3_Predictions.py` lines 113–117): for each distinct school label, the
mean of the boolean `at_risk` column over that school's rows — the fraction of
at-risk rows.  pandas sorts the group keys for display; sorting does not
change which pairs appear, so the deduplicated key list is used directly. -/
def risk_by_school (l : List Assessment) : List (String × ℚ) :=
  (l.map (·.school_name)).dedup.map fun k =>
    let g := l.filter fun r => decide (r.school_name = k)
    (k, (g.countP (·.at_risk) : ℚ) / (g.length : ℚ))

/-- `risk_by_school["at_risk_pct"] = risk_by_school["at_risk"] * 100`
(`src/3_Predictions.py` line 118): the per-school rate scaled to percent. -/
def risk_by_school_pct (l : List Assessment) : List (String × ℚ) :=
  (risk_by_school l).map fun p => (p.1, p.2 * 100)

/-- The number of rows of one school's group — the quantity the spec's
Aggregator contract says is returned per group. -/
def groupCount (l : List Assessment) (k : String) : ℕ :=
  (l.filter fun r => decide (r.school_name = k)).length

/-- pandas `Series.mean()`: the arithmetic mean, `NaN` (here `none`) on an
empty series. -/
def seriesMean (l : List ℚ) : Option ℚ :=
  if l.length = 0 then none else some (l.sum / (l.length : ℚ))

/-- `total_students = filtered.shape[0]` (`src/1_Overview.py` line 64). -/
def total_students (df : List Record) : ℕ :=
  df.length

/-- `avg_grade = filtered["G3"].mean()` (`src/1_Overview.py` line 65). -/
def avg_grade (df : List Record) : Option ℚ :=
  seriesMean (df.map (·.G3))

/-- `at_risk_pct = (filtered["G3"] < 10).mean() * 100`
(`src/1_Overview.py` line 66): the mean of the 0/1 indicator of `G3 < 10`,
scaled to percent; `NaN` (here `none`) on an empty cohort. -/
def at_risk_pct (df : List Record) : Option ℚ :=
  (seriesMean (df.map fun r => if r.G3 < 10 then (1 : ℚ) else 0)).map (· * 100)

/-- Modelled from the spec: the Risk Model's `fit` is a call into an
off-the-shelf `RandomForestRegressor` (`rf.fit(X_encoded, target)`,
`src/3_Predictions.py` line 81), whose implementation is not part of this
repository.  Per the spec (§4.2) "if the input collection is empty, fitting
fails (undefined regression target)", so fitting the empty cohort yields no
model; on a nonempty cohort it yields a fitted-model token.  The source calls
it unconditionally on the filtered cohort, with no emptiness guard. -/
def rf_fit (cohort : List Record) : Option Unit :=
  if cohort.length = 0 then none else some ()

/-- The school label → school code translation inside `student_dict`
(`src/3_Predictions.py` line 163):
`"GP" if school == "Gabriel Pereira" else "MS"`. -/
def school_code (school : String) : String :=
  if school = "Gabriel Pereira" then "GP" else "MS"

/-- The spec's aggregator scenario input: school A with at-risk flags
`[true, false]`, school B with `[true, true]`. -/
def scenarioAB : List Assessment :=
  [⟨"A", true⟩, ⟨"A", false⟩, ⟨"B", true⟩, ⟨"B", true⟩]

/-- The aggregator scenario with every row duplicated: the same per-school
rates as `scenarioAB` but twice the rows in each group. -/
def scenarioABDoubled : List Assessment :=
  [⟨"A", true⟩, ⟨"A", false⟩, ⟨"A", true⟩, ⟨"A", false⟩,
   ⟨"B", true⟩, ⟨"B", true⟩, ⟨"B", true⟩, ⟨"B", true⟩]

/-- A concrete dataset row used to instantiate the filter theorems. -/
def sampleRecord : Record :=
  ⟨"Gabriel Pereira", "F", 2, 8⟩

/-- A concrete what-if form input used to instantiate the encoding theorems. -/
def sampleStudent : StudentInput :=
  ⟨2, 5, 10, 10, 0, 3, "F", "GP"⟩

end StudentRisk

namespace StudentRisk

/-- `max 0 (min x 1)` and `min (max x 0) 1` agree: both clamp to `[0, 1]`. -/
lemma max_zero_min_one_eq_clamp (x : ℚ) : max 0 (min x 1) = clamp x 0 1 := by
  unfold clamp
  rw [max_min_distrib_left, max_comm (0 : ℚ) x]
  norm_num

/-- The single-record risk score is the spec's clamp of `(10 - g) / 10`. -/
lemma risk_prob_eq_clamp (g : ℚ) :
    risk_prob g = clamp ((10 - g) / 10) 0 1 := by
  unfold risk_prob
  exact max_zero_min_one_eq_clamp _

/-- The batch risk score is the spec's clamp of `(10 - g) / 10`. -/
lemma risk_probability_eq_clamp (g : ℚ) :
    risk_probability g = clamp ((10 - g) / 10) 0 1 := by
  unfold risk_probability clamp
  rcases le_total (10 - g) 0 with h | h
  · have hd : (10 - g) / 10 ≤ 0 :=
      div_nonpos_of_nonpos_of_nonneg h (by norm_num)
    rw [max_eq_right h, max_eq_right hd]
    norm_num
  · rw [max_eq_left h,
      max_eq_left (div_nonneg h (by norm_num))]

/-- Folding `min` over a list never exceeds the initial accumulator. -/
lemma foldl_min_le_init (rs : List ℤ) (a : ℤ) : rs.foldl min a ≤ a := by
  induction rs generalizing a with
  | nil => simp
  | cons x xs ih =>
    exact le_trans (ih (min a x)) (min_le_left a x)

/-- Folding `min` over a list never exceeds any list element. -/
lemma foldl_min_le_mem (rs : List ℤ) (a x : ℤ) (hx : x ∈ rs) :
    rs.foldl min a ≤ x := by
  induction rs generalizing a with
  | nil => cases hx
  | cons y ys ih =>
    rcases List.mem_cons.mp hx with rfl | h
    · exact le_trans (foldl_min_le_init ys (min a x)) (min_le_right a x)
    · exact ih (min a y) h

/-- The column minimum is a lower bound for every row's `studytime`. -/
lemma minStudytime_le (df : List Record) (r : Record) (hr : r ∈ df) :
    minStudytime df ≤ r.studytime := by
  cases df with
  | nil => cases hr
  | cons h t =>
    rcases List.mem_cons.mp hr with rfl | hm
    · exact foldl_min_le_init _ _
    · exact foldl_min_le_mem _ _ _ (List.mem_map_of_mem _ hm)

/-- A key absent from an association list's key column has no lookup value. -/
lemma lookup_eq_none_of_not_mem_keys {β : Type} (l : List (String × β))
    (c : String) (h : c ∉ l.map Prod.fst) : l.lookup c = none := by
  induction l with
  | nil => rfl
  | cons p t ih =>
    simp only [List.map_cons, List.mem_cons, not_or] at h
    have hb : (c == p.1) = false := by
      simpa using h.1
    cases p with
    | mk k v =>
      simp only [List.lookup]
      simp only at hb
      rw [hb]
      exact ih h.2

/-- The aligned single-record encode carries exactly the schema's columns in
the schema's order. -/
lemma align_encode_map_fst (s : StudentInput) (schema : List String) :
    (align_encode s schema).map Prod.fst = schema := by
  unfold align_encode reindexRow
  have h : (Prod.fst ∘ fun c : String =>
      (c, ((get_dummies_single s).lookup c).getD 0)) = id := rfl
  rw [List.map_map, h, List.map_id]

/-- The aligned single-record encode has exactly the schema's length. -/
lemma align_encode_length (s : StudentInput) (schema : List String) :
    (align_encode s schema).length = schema.length := by
  simp [align_encode, reindexRow]

/-- C1: for every predicted grade, `risk_prob` equals
`clamp((10 - predicted_grade) / 10, 0, 1)`; consequently it is monotonically
non-increasing in the predicted grade, equals 1 whenever the grade is ≤ 0,
equals 0 whenever the grade is ≥ 10, and is exactly 1/2 at grade 5. -/
theorem risk_C1 :
    (∀ g : ℚ, risk_prob g = clamp ((10 - g) / 10) 0 1) ∧
    (∀ g : ℚ, g ≤ 0 → risk_prob g = 1) ∧
    (∀ g : ℚ, 10 ≤ g → risk_prob g = 0) ∧
    risk_prob 5 = 1 / 2 ∧
    (∀ g₁ g₂ : ℚ, g₁ ≤ g₂ → risk_prob g₂ ≤ risk_prob g₁) := by
  refine ⟨risk_prob_eq_clamp, ?_, ?_, ?_, ?_⟩
  · intro g hg
    have h1 : (1 : ℚ) ≤ (10 - g) / 10 := by
      rw [le_div_iff₀ (by norm_num : (0 : ℚ) < 10)]
      linarith
    rw [risk_prob_eq_clamp, clamp, max_eq_left (le_trans zero_le_one h1),
      min_eq_right h1]
  · intro g hg
    have hd : (10 - g) / 10 ≤ 0 :=
      div_nonpos_of_nonpos_of_nonneg (by linarith) (by norm_num)
    rw [risk_prob_eq_clamp, clamp, max_eq_right hd]
    exact min_eq_left (by norm_num)
  · norm_num [risk_prob, min_def, max_def]
  · intro g₁ g₂ h
    rw [risk_prob_eq_clamp, risk_prob_eq_clamp]
    unfold clamp
    have hdiv : (10 - g₂) / 10 ≤ (10 - g₁) / 10 :=
      (div_le_div_iff_of_pos_right (by norm_num : (0 : ℚ) < 10)).mpr
        (by linarith)
    exact min_le_min (max_le_max hdiv le_rfl) le_rfl

/-- C1 witness: the hypotheses of risk_C1 discharged at grades -1, 12 and the
pair 3 ≤ 7. -/
theorem risk_C1_witness :
    risk_prob (-1) = 1 ∧ risk_prob 12 = 0 ∧ risk_prob 7 ≤ risk_prob 3 :=
  ⟨risk_C1.2.1 (-1) (by norm_num), risk_C1.2.2.1 12 (by norm_num),
   risk_C1.2.2.2.2 3 7 (by norm_num)⟩

/-- C2: for every prediction the at-risk flag is true iff the predicted grade
is strictly below 10; at grade exactly 10 the flag is false and the
single-record risk probability is 0. -/
theorem risk_C2 :
    (∀ g : ℚ, at_risk g = true ↔ g < 10) ∧
    at_risk 10 = false ∧ risk_prob 10 = 0 := by
  refine ⟨fun g => by simp [at_risk], by simp [at_risk], ?_⟩
  norm_num [risk_prob, min_def, max_def]

/-- C2 witness: the flag evaluated through risk_C2 at the concrete grade 8. -/
theorem risk_C2_witness : at_risk 8 = true :=
  (risk_C2.1 8).mpr (by norm_num)

/-- C3: for every what-if record and every column schema, the aligned encode
has exactly the schema's columns in the schema's order and the schema's
length; every schema column absent from the record's one-hot expansion is
zero-filled, and every column of the result is a schema column (so expansion
columns outside the schema are dropped), regardless of the record's
categorical values. -/
theorem risk_C3 :
    ∀ (s : StudentInput) (schema : List String),
      (align_encode s schema).map Prod.fst = schema ∧
      (align_encode s schema).length = schema.length ∧
      (∀ c, c ∈ schema → c ∉ (get_dummies_single s).map Prod.fst →
        (c, (0 : ℚ)) ∈ align_encode s schema) ∧
      (∀ p ∈ align_encode s schema, p.1 ∈ schema) := by
  intro s schema
  refine ⟨align_encode_map_fst s schema, align_encode_length s schema, ?_, ?_⟩
  · intro c hc hnot
    have hl : (get_dummies_single s).lookup c = none :=
      lookup_eq_none_of_not_mem_keys _ _ hnot
    have h2 := List.mem_map_of_mem
      (fun c => (c, ((get_dummies_single s).lookup c).getD 0)) hc
    simp only [align_encode, reindexRow]
    simpa [hl] using h2
  · intro p hp
    simp only [align_encode, reindexRow] at hp
    rcases List.mem_map.mp hp with ⟨c, hc, rfl⟩
    exact hc

/-- C3 witness: risk_C3 instantiated at the sample record and the schema
`["G1", "sex_M"]`, whose second column is absent from the single-record
expansion and is zero-filled. -/
theorem risk_C3_witness :
    (align_encode sampleStudent ["G1", "sex_M"]).map Prod.fst =
      ["G1", "sex_M"] ∧
    ("sex_M", (0 : ℚ)) ∈ align_encode sampleStudent ["G1", "sex_M"] :=
  ⟨(risk_C3 sampleStudent ["G1", "sex_M"]).1,
   (risk_C3 sampleStudent ["G1", "sex_M"]).2.2.1 "sex_M" (by decide)
     (by decide)⟩

/-- C4: the filter returns exactly the rows passing all three conjuncts — a
row is in the output iff it is in the input with its school selected, its
gender selected and its studytime at least the minimum; the output is a
subsequence of the input; and an empty school or gender selection yields an
empty result. -/
theorem risk_C4 :
    (∀ (df : List Record) (c : FilterCriteria) (r : Record),
        r ∈ applyFilter df c ↔
          r ∈ df ∧ r.school_name ∈ c.schools ∧ r.sex ∈ c.genders ∧
            c.minStudytime ≤ r.studytime) ∧
    (∀ (df : List Record) (c : FilterCriteria),
        (applyFilter df c).Sublist df) ∧
    (∀ (df : List Record) (gs : List String) (m : ℤ),
        applyFilter df ⟨[], gs, m⟩ = []) ∧
    (∀ (df : List Record) (ss : List String) (m : ℤ),
        applyFilter df ⟨ss, [], m⟩ = []) := by
  refine ⟨?_, ?_, ?_, ?_⟩
  · intro df c r
    simp [applyFilter, List.mem_filter, and_assoc]
  · intro df c
    exact List.filter_sublist _
  · intro df gs m
    simp [applyFilter]
  · intro df ss m
    simp [applyFilter]

/-- C4 witness: risk_C4 instantiated on a one-row collection and a criteria
set the row satisfies. -/
theorem risk_C4_witness :
    sampleRecord ∈ applyFilter [sampleRecord] ⟨["Gabriel Pereira"], ["F"], 1⟩ :=
  (risk_C4.1 [sampleRecord] ⟨["Gabriel Pereira"], ["F"], 1⟩ sampleRecord).mpr
    ⟨List.mem_singleton.mpr rfl, by decide, by decide, by decide⟩

/-- C5: with the default sidebar selections — every distinct school label,
every distinct gender, and the collection's minimum studytime as threshold —
the filter returns the input collection unchanged. -/
theorem risk_C5 :
    ∀ df : List Record, applyFilter df (defaultCriteria df) = df := by
  intro df
  unfold applyFilter
  apply List.filter_eq_self.mpr
  intro r hr
  have h1 : r.school_name ∈ (df.map (·.school_name)).dedup :=
    List.mem_dedup.mpr (List.mem_map_of_mem _ hr)
  have h2 : r.sex ∈ (df.map (·.sex)).dedup :=
    List.mem_dedup.mpr (List.mem_map_of_mem _ hr)
  have h3 : minStudytime df ≤ r.studytime := minStudytime_le df r hr
  simp [defaultCriteria, h1, h2, h3]

/-- C6 counterexample: on the empty cohort the KPI percentage is `NaN`
(modelled `none`), not zero, and the model fit is not skipped — it is
attempted and fails — so the claim that KPIs report zeros and the fit is
skipped is false at the empty cohort. -/
theorem risk_C6_counterexample :
    at_risk_pct ([] : List Record) = none ∧
    at_risk_pct ([] : List Record) ≠ some 0 ∧
    avg_grade ([] : List Record) = none ∧
    rf_fit ([] : List Record) = none := by
  refine ⟨rfl, ?_, rfl, rfl⟩
  simp [at_risk_pct, seriesMean]

/-- C6 amended: when the criteria select zero records, filtering and grouping
degrade to empty results and the student count is zero, but the mean-based
KPIs are undefined (`NaN`, modelled `none`) rather than zero, and the
unguarded model fit on the empty cohort fails. -/
theorem risk_C6_theorem :
    applyFilter [sampleRecord] ⟨[], ["F"], 1⟩ = [] ∧
    risk_by_school ([] : List Assessment) = [] ∧
    total_students ([] : List Record) = 0 ∧
    avg_grade ([] : List Record) = none ∧
    at_risk_pct ([] : List Record) = none ∧
    rf_fit ([] : List Record) = none := by
  refine ⟨by decide, rfl, rfl, rfl, rfl, rfl⟩

/-- C7 counterexample: aligning the sample record against a schema that is
not the fitted model's schema is not rejected — it silently returns the
zero-filled vector aligned to that schema. -/
theorem risk_C7_counterexample :
    student_encoded sampleStudent ["not_a_model_column"] =
      [("not_a_model_column", 0)] ∧
    (student_encoded sampleStudent ["not_a_model_column"]).map Prod.fst =
      ["not_a_model_column"] := by
  constructor <;> decide

/-- C7 amended: the single-record encode never rejects any schema — for every
record and every column schema it totally returns a vector whose columns are
exactly that schema; the source's only call passes the fitted model's own
columns, so the produced vector is aligned to the model schema by
construction, and no SchemaMismatchError exists anywhere in the code. -/
theorem risk_C7_theorem :
    ∀ (s : StudentInput) (xcols : List String),
      (student_encoded s xcols).map Prod.fst = xcols ∧
      (student_encoded s xcols).length = xcols.length := by
  intro s xcols
  exact ⟨align_encode_map_fst s xcols, align_encode_length s xcols⟩

/-- The aggregation evaluated on the scenario: rate 1/2 for school A, rate 1
for school B. -/
lemma risk_by_school_scenarioAB :
    risk_by_school scenarioAB = [("A", 1 / 2), ("B", 1)] := by
  have hd : (scenarioAB.map (·.school_name)).dedup = ["A", "B"] := by decide
  have hA : scenarioAB.filter (fun r => decide (r.school_name = "A")) =
      [⟨"A", true⟩, ⟨"A", false⟩] := by decide
  have hB : scenarioAB.filter (fun r => decide (r.school_name = "B")) =
      [⟨"B", true⟩, ⟨"B", true⟩] := by decide
  rw [risk_by_school, hd]
  simp only [List.map_cons, List.map_nil]
  rw [hA, hB]
  norm_num [List.countP, List.countP.go]

/-- The aggregation evaluated on the doubled scenario: the same rates as on
the scenario itself. -/
lemma risk_by_school_scenarioABDoubled :
    risk_by_school scenarioABDoubled = [("A", 1 / 2), ("B", 1)] := by
  have hd : (scenarioABDoubled.map (·.school_name)).dedup = ["A", "B"] := by
    decide
  have hA : scenarioABDoubled.filter (fun r => decide (r.school_name = "A")) =
      [⟨"A", true⟩, ⟨"A", false⟩, ⟨"A", true⟩, ⟨"A", false⟩] := by decide
  have hB : scenarioABDoubled.filter (fun r => decide (r.school_name = "B")) =
      [⟨"B", true⟩, ⟨"B", true⟩, ⟨"B", true⟩, ⟨"B", true⟩] := by decide
  rw [risk_by_school, hd]
  simp only [List.map_cons, List.map_nil]
  rw [hA, hB]
  norm_num [List.countP, List.countP.go]

/-- C8 counterexample: the by-school aggregation output is identical for the
scenario and for the scenario with every row duplicated, although the two
have different group sizes — so the aggregation cannot be returning the count
of records per group. -/
theorem risk_C8_counterexample :
    risk_by_school scenarioABDoubled = risk_by_school scenarioAB ∧
    groupCount scenarioAB "A" = 2 ∧
    groupCount scenarioABDoubled "A" = 4 := by
  refine ⟨?_, by decide, by decide⟩
  rw [risk_by_school_scenarioAB, risk_by_school_scenarioABDoubled]

/-- C8 amended: for every assessment collection the by-school aggregation
returns, per distinct school label, the mean at-risk rate, a fraction in
`[0, 1]` (scaled to percent in the derived column) — but not the group count;
on the scenario it reports 1/2 (50%) for school A and 1 (100%) for school
B. -/
theorem risk_C8_theorem :
    (∀ l : List Assessment, ∀ p ∈ risk_by_school l, 0 ≤ p.2 ∧ p.2 ≤ 1) ∧
    risk_by_school scenarioAB = [("A", 1 / 2), ("B", 1)] ∧
    risk_by_school_pct scenarioAB = [("A", 50), ("B", 100)] := by
  refine ⟨?_, risk_by_school_scenarioAB, ?_⟩
  case refine_2 =>
    rw [risk_by_school_pct, risk_by_school_scenarioAB]
    norm_num
  intro l p hp
  simp only [risk_by_school] at hp
  rcases List.mem_map.mp hp with ⟨k, hk, rfl⟩
  constructor
  · exact div_nonneg (Nat.cast_nonneg _) (Nat.cast_nonneg _)
  · exact div_le_one_of_le₀
      (Nat.cast_le.mpr (List.countP_le_length _)) (Nat.cast_nonneg _)

/-- C8 witness: risk_C8_theorem applied at the scenario and its school-A
row. -/
theorem risk_C8_witness :
    ("A", (1 : ℚ) / 2) ∈ risk_by_school scenarioAB ∧
    0 ≤ ((1 : ℚ) / 2) ∧ ((1 : ℚ) / 2) ≤ 1 := by
  have hm : ("A", (1 : ℚ) / 2) ∈ risk_by_school scenarioAB := by
    rw [risk_by_school_scenarioAB]
    exact List.mem_cons_self _ _
  have h := risk_C8_theorem.1 scenarioAB ("A", (1 : ℚ) / 2) hm
  exact ⟨hm, h.1, h.2⟩

/-- C9: the batch per-row risk expression and the single-record risk
expression compute the same function of the predicted grade. -/
theorem risk_C9 : ∀ g : ℚ, risk_probability g = risk_prob g := by
  intro g
  rw [risk_probability_eq_clamp, risk_prob_eq_clamp]

/-- C10: in the what-if entry point every school label other than
"Gabriel Pereira" — including labels unknown to the school mapping — is
translated to the code "MS"; the label "Gabriel Pereira" maps to "GP", and no
label is ever rejected: the translation is total with range {"GP", "MS"}. -/
theorem risk_C10 :
    (∀ s : String, s ≠ "Gabriel Pereira" → school_code s = "MS") ∧
    school_code "Gabriel Pereira" = "GP" ∧
    (∀ s : String, school_code s = "GP" ∨ school_code s = "MS") := by
  refine ⟨?_, by simp [school_code], ?_⟩
  · intro s hs
    simp [school_code, hs]
  · intro s
    by_cases hs : s = "Gabriel Pereira" <;> simp [school_code, hs]

/-- C10 witness: risk_C10 applied to a label unknown to the school mapping. -/
theorem risk_C10_witness : school_code "Hogwarts" = "MS" :=
  risk_C10.1 "Hogwarts" (by decide)

end StudentRisk
